import Mathlib

/-!
Shallow embedding of the Blog-CLI post-management tool (Rust sources
`src/post.rs`, `src/utils.rs`, `src/header.rs`) and proofs about it.

Modelling conventions:
* `chrono::DateTime<Utc>` timestamps are abstract ticks (`Nat`).
* Filesystem paths (`PathBuf`) are lists of components (`List String`).
* The filesystem is an explicit state: an association list from paths to
  file data plus a list of existing directories.  I/O primitives that can
  fail only for environment reasons (disk full, permissions) are modelled
  as total; all failures that the program itself decides on (missing
  files, guards, parse errors) are modelled faithfully.
* TOML (de)serialization is modelled at the document level: a document is
  a record of optional fields.  The serde `derive(Deserialize)` used by
  the program requires every non-`Option` field to be present (there is
  no `#[serde(default)]` in the source), and `Option` fields default to
  `None`; `toml::to_string` emits every field, skipping `None` values.
-/

set_option autoImplicit false

deriving instance DecidableEq for Except

namespace BlogCLI

/-- Abstract model of `chrono::DateTime<Utc>` values. -/
abbrev Timestamp := Nat

/-- `PathBuf`, modelled as the list of path components. -/
abbrev Path := List String

/-- `PostInfo` struct from `src/post.rs` (lines 250-257). -/
structure PostInfo where
  title : String
  author : String
  published_date : Option Timestamp
  update : Option Timestamp
  tags : List String
  deriving DecidableEq

/-- `Default` for `PostInfo`: empty strings, `None` timestamps, empty vector. -/
def PostInfo.default : PostInfo :=
  { title := "", author := "", published_date := none, update := none, tags := [] }

/-- `OpenGraph` struct from `src/post.rs` (lines 300-306). -/
structure OpenGraph where
  short : String
  opengraphimage : String
  description : String
  keywords : List String
  deriving DecidableEq

/-- `Default` for `OpenGraph`. -/
def OpenGraph.default : OpenGraph :=
  { short := "", opengraphimage := "", description := "", keywords := [] }

/-- `Metadata` struct from `src/post.rs` (lines 144-148). -/
structure Metadata where
  post : PostInfo
  opengraph : OpenGraph
  deriving DecidableEq

/-- `Default` for `Metadata`. -/
def Metadata.default : Metadata :=
  { post := PostInfo.default, opengraph := OpenGraph.default }

/-- `Metadata::with_title` (`src/post.rs` lines 151-154). -/
def Metadata.with_title (m : Metadata) (title : String) : Metadata :=
  { m with post := { m.post with title := title } }

/-!  Tag and keyword editing (`src/post.rs`).  The Rust methods mutate
`self` and return `Result<(), String>`; here they return the result
together with the updated record, the record being unchanged on error. -/

/-- `PostInfo::add_tag` (`src/post.rs` lines 261-269). -/
def PostInfo.add_tag (p : PostInfo) (tag : String) : Except String Unit × PostInfo :=
  if p.tags.contains tag then
    (.error s!"Tag `{tag}` is already attached to this blog post", p)
  else
    (.ok (), { p with tags := p.tags ++ [tag] })

/-- `PostInfo::remove_tag` (`src/post.rs` lines 272-285).  Mirrors the
source exactly, including the `position(..).ok_or(..)` step (whose error
branch is unreachable once `contains` holds) and the error message of the
`else` branch. -/
def PostInfo.remove_tag (p : PostInfo) (tag : String) : Except String Unit × PostInfo :=
  if p.tags.contains tag then
    match p.tags.findIdx? (fun x => x == tag) with
    | some index => (.ok (), { p with tags := p.tags.eraseIdx index })
    | none => (.error s!"Tag `{tag}` was not found in the post's tags", p)
  else
    (.error s!"Tag `{tag}` is already attached to this blog post", p)

/-- `OpenGraph::add_keyword` (`src/post.rs` lines 310-320). -/
def OpenGraph.add_keyword (g : OpenGraph) (keyword : String) : Except String Unit × OpenGraph :=
  if g.keywords.contains keyword then
    (.error s!"Keyword `{keyword}` is already attached to this blog post", g)
  else
    (.ok (), { g with keywords := g.keywords ++ [keyword] })

/-- `OpenGraph::remove_keyword` (`src/post.rs` lines 323-340). -/
def OpenGraph.remove_keyword (g : OpenGraph) (keyword : String) : Except String Unit × OpenGraph :=
  if g.keywords.contains keyword then
    match g.keywords.findIdx? (fun x => x == keyword) with
    | some index => (.ok (), { g with keywords := g.keywords.eraseIdx index })
    | none => (.error s!"Keyword `{keyword}` was not found in the post's tags", g)
  else
    (.error s!"Keyword `{keyword}` is already attached to this blog post", g)

/-- A single tag edit, as dispatched by the command surface. -/
inductive TagOp where
  | add (value : String)
  | remove (value : String)
  deriving DecidableEq

/-- Apply one tag edit, keeping the resulting state (the state is unchanged
when the operation fails, as in the source). -/
def applyTagOp (p : PostInfo) (op : TagOp) : PostInfo :=
  match op with
  | .add v => (p.add_tag v).2
  | .remove v => (p.remove_tag v).2

/-- Apply a sequence of tag edits in order. -/
def applyTagOps (p : PostInfo) (ops : List TagOp) : PostInfo :=
  ops.foldl applyTagOp p

/-- A single keyword edit, as dispatched by the command surface. -/
inductive KeywordOp where
  | add (value : String)
  | remove (value : String)
  deriving DecidableEq

/-- Apply one keyword edit, keeping the resulting state. -/
def applyKeywordOp (g : OpenGraph) (op : KeywordOp) : OpenGraph :=
  match op with
  | .add v => (g.add_keyword v).2
  | .remove v => (g.remove_keyword v).2

/-- Apply a sequence of keyword edits in order. -/
def applyKeywordOps (g : OpenGraph) (ops : List KeywordOp) : OpenGraph :=
  ops.foldl applyKeywordOp g

/-!  TOML documents.  A document is a record of optional fields: `none`
means the field is absent from the file.  `toml::from_str` with serde's
derived `Deserialize` (no `#[serde(default)]` appears in the source)
rejects a document whose non-`Option` fields are not all present, with a
`missing field` error naming the first missing field in declaration
order; `Option`-typed fields are filled with `None` when absent. -/

/-- Document shape of the `[post]` table of `metadata.toml`. -/
structure PostInfoDoc where
  title : Option String
  author : Option String
  published_date : Option Timestamp
  update : Option Timestamp
  tags : Option (List String)
  deriving DecidableEq

/-- Document shape of the `[opengraph]` table of `metadata.toml`. -/
structure OpenGraphDoc where
  short : Option String
  opengraphimage : Option String
  description : Option String
  keywords : Option (List String)
  deriving DecidableEq

/-- Document shape of a whole `metadata.toml` file. -/
structure MetadataDoc where
  post : Option PostInfoDoc
  opengraph : Option OpenGraphDoc
  deriving DecidableEq

/-- The document of an empty metadata file: no field is present. -/
def MetadataDoc.empty : MetadataDoc := { post := none, opengraph := none }

/-- serde: a non-`Option` field must be present, else `missing field` error. -/
def requireField {α : Type} (name : String) : Option α → Except String α
  | some a => .ok a
  | none => .error s!"missing field `{name}`"

/-- Deserialize the `[post]` table (serde derive semantics for `PostInfo`). -/
def parsePostInfo (d : PostInfoDoc) : Except String PostInfo := do
  let title ← requireField "title" d.title
  let author ← requireField "author" d.author
  let tags ← requireField "tags" d.tags
  .ok { title := title, author := author, published_date := d.published_date,
        update := d.update, tags := tags }

/-- Deserialize the `[opengraph]` table (serde derive semantics for `OpenGraph`). -/
def parseOpenGraph (d : OpenGraphDoc) : Except String OpenGraph := do
  let short ← requireField "short" d.short
  let opengraphimage ← requireField "opengraphimage" d.opengraphimage
  let description ← requireField "description" d.description
  let keywords ← requireField "keywords" d.keywords
  .ok { short := short, opengraphimage := opengraphimage,
        description := description, keywords := keywords }

/-- `toml::from_str::<Metadata>` at the document level (`src/post.rs` line 68). -/
def parseMetadata (d : MetadataDoc) : Except String Metadata := do
  let postDoc ← requireField "post" d.post
  let post ← parsePostInfo postDoc
  let ogDoc ← requireField "opengraph" d.opengraph
  let opengraph ← parseOpenGraph ogDoc
  .ok { post := post, opengraph := opengraph }

/-- The fields of a `metadata.toml` document that serde requires: both
tables, and every non-`Option` field inside them.  (Used to characterize
when `parseMetadata` succeeds.) -/
def requiredMetadataFieldsPresent (d : MetadataDoc) : Bool :=
  match d.post, d.opengraph with
  | some p, some o =>
    (p.title.isSome && p.author.isSome && p.tags.isSome) &&
    (o.short.isSome && o.opengraphimage.isSome && o.description.isSome && o.keywords.isSome)
  | _, _ => false

/-- `toml::to_string` of `PostInfo`: every field is emitted; `None`
timestamps are skipped (absent from the document). -/
def serializePostInfo (p : PostInfo) : PostInfoDoc :=
  { title := some p.title, author := some p.author,
    published_date := p.published_date, update := p.update, tags := some p.tags }

/-- `toml::to_string` of `OpenGraph`: every field is emitted. -/
def serializeOpenGraph (g : OpenGraph) : OpenGraphDoc :=
  { short := some g.short, opengraphimage := some g.opengraphimage,
    description := some g.description, keywords := some g.keywords }

/-- `toml::to_string(&self.metadata)` at the document level (`src/post.rs` line 126). -/
def serializeMetadata (m : Metadata) : MetadataDoc :=
  { post := some (serializePostInfo m.post),
    opengraph := some (serializeOpenGraph m.opengraph) }

/-!  `PexelPicture` (`src/header.rs` lines 28-39).  The `HashMap<String,
String>` of size variants is modelled as an association list keyed by the
variant name. -/

/-- The `PexelPicture` struct of `src/header.rs`. -/
structure PexelPicture where
  width : Nat
  height : Nat
  url : String
  photographer : String
  photographer_url : String
  src : List (String × String)
  alt : String
  deriving DecidableEq

/-- Document shape of a candidate's sidecar `header_{n}.toml` file. -/
structure PexelPictureDoc where
  width : Option Nat
  height : Option Nat
  url : Option String
  photographer : Option String
  photographer_url : Option String
  src : Option (List (String × String))
  alt : Option String
  deriving DecidableEq

/-- `toml::from_str::<PexelPicture>` at the document level, as invoked by
`Metadata::list_header_candidates` (`src/post.rs` line 204).  serde derive
semantics: every field of the struct — `alt : String` included — is
required. -/
def parsePexelPicture (d : PexelPictureDoc) : Except String PexelPicture := do
  let width ← requireField "width" d.width
  let height ← requireField "height" d.height
  let url ← requireField "url" d.url
  let photographer ← requireField "photographer" d.photographer
  let photographer_url ← requireField "photographer_url" d.photographer_url
  let src ← requireField "src" d.src
  let alt ← requireField "alt" d.alt
  .ok { width := width, height := height, url := url, photographer := photographer,
        photographer_url := photographer_url, src := src, alt := alt }

/-- `toml::to_string` of a `PexelPicture` (sidecar serialization in
`src/header.rs` line 87). -/
def serializePexelPicture (p : PexelPicture) : PexelPictureDoc :=
  { width := some p.width, height := some p.height, url := some p.url,
    photographer := some p.photographer, photographer_url := some p.photographer_url,
    src := some p.src, alt := some p.alt }

/-!  Decimal formatting, as performed by Rust's `format!("{:04}", n)` /
`format!("{:02}", n)`: the decimal digits of `n`, left-padded with zeros
up to the requested width. -/

/-- Decimal digits of `n`, most significant first; `fuel` bounds the
recursion depth (structural, so the kernel can evaluate it). -/
def decimalReprAux : Nat → Nat → List Char
  | 0, _ => []
  | fuel + 1, n =>
    if n < 10 then [Nat.digitChar n]
    else decimalReprAux fuel (n / 10) ++ [Nat.digitChar (n % 10)]

/-- The decimal digit characters of `n`, most significant first
(`Display` for unsigned integers).  `n + 1` units of fuel always
suffice. -/
def decimalRepr (n : Nat) : List Char := decimalReprAux (n + 1) n

/-- `format!("{:0w}", n)`: decimal digits left-padded with `'0'` to width `w`. -/
def zeroPad (w : Nat) (n : Nat) : String :=
  ⟨List.replicate (w - (decimalRepr n).length) '0' ++ decimalRepr n⟩

/-!  `slugify!` (the `slugify` crate, used in `Post::new`): lower-cases,
maps runs of characters that are not ASCII letters or digits to a single
`'-'` separator, and trims leading/trailing separators.  The crate first
transliterates non-ASCII characters through a unidecode table; that table
is beyond the scope of this embedding — here non-ASCII characters fall
into the separator case.  No claim depends on the transliteration. -/

/-- One step of slug construction: state is (slug so far, previous
character was a separator — initially true so no leading separator). -/
def slugifyPush (st : List Char × Bool) (c : Char) : List Char × Bool :=
  if ('a' ≤ c ∧ c ≤ 'z') ∨ ('0' ≤ c ∧ c ≤ '9') then
    (st.1 ++ [c], false)
  else if 'A' ≤ c ∧ c ≤ 'Z' then
    (st.1 ++ [Char.ofNat (c.toNat + 32)], false)
  else if st.2 then st
  else (st.1 ++ ['-'], true)

/-- `slugify!(title)` with the default `"-"` separator. -/
def slugify (s : String) : String :=
  let r := s.toList.foldl slugifyPush ([], true)
  ⟨if r.1.getLast? = some '-' then r.1.dropLast else r.1⟩

/-- The projection of `Utc::now()` used by `Post::new`: current year and
month.  The clock is ambient state in the source; the embedding passes it
explicitly. -/
structure Date where
  year : Nat
  month : Nat
  deriving DecidableEq

/-- The `Post` struct of `src/post.rs` (lines 16-20). -/
structure Post where
  content : String
  path : Path
  metadata : Metadata
  deriving DecidableEq

/-- `Post::new` (`src/post.rs` lines 24-46): path
`{year:04}/{month:02}/{slug}`, content a single H1 heading, metadata
defaulted with only the title set.  Pure: no filesystem argument. -/
def Post.new (title : String) (today : Date) : Post :=
  { content := "# " ++ title,
    path := [zeroPad 4 today.year, zeroPad 2 today.month, slugify title],
    metadata := Metadata.default.with_title title }

/-!  Filesystem model.  Files carry typed data (the embedding works at
the document level for TOML files); directories are tracked as a list of
paths.  `write` always succeeds (environment-caused IO failures such as
permission errors are outside the model); reads and existence tests are
faithful. -/

/-- Data stored in a file. -/
inductive FileData where
  | text : String → FileData
  | metaToml : MetadataDoc → FileData
  | picToml : PexelPictureDoc → FileData
  | bytes : List Nat → FileData
  deriving DecidableEq

/-- Filesystem state: files (association list, most recent write first)
and existing directories. -/
structure FS where
  files : List (Path × FileData)
  dirs : List Path
  deriving DecidableEq

/-- The empty filesystem. -/
def FS.empty : FS := { files := [], dirs := [] }

/-- Contents of the file at `p`, if a file exists there. -/
def FS.fileAt (fs : FS) (p : Path) : Option FileData :=
  fs.files.lookup p

/-- `Path::is_file`. -/
def FS.isFile (fs : FS) (p : Path) : Bool :=
  (fs.fileAt p).isSome

/-- `Path::exists`: a file or a directory is at `p`. -/
def FS.pathExists (fs : FS) (p : Path) : Bool :=
  (fs.fileAt p).isSome || fs.dirs.contains p

/-- `fs::write`: create or overwrite the file at `p`. -/
def FS.write (fs : FS) (p : Path) (d : FileData) : FS :=
  { fs with files := (p, d) :: fs.files }

/-- All non-empty prefixes of a path (the path and its ancestors). -/
def pathPrefixes (p : Path) : List Path :=
  (List.range p.length).map (fun n => p.take (n + 1))

/-- `DirBuilder::new().recursive(true).create(p)`: creates `p` and all
missing ancestors; fails when `p` or an ancestor already exists as a
regular file (the OS refuses to make a directory there). -/
def dirBuilderCreate (fs : FS) (p : Path) : Except String FS :=
  if (pathPrefixes p).any (fun q => (fs.fileAt q).isSome) then
    .error "Failed to create directory: File exists (os error 17)"
  else
    .ok { fs with dirs := pathPrefixes p ++ fs.dirs }

/-- `create_path` (`src/utils.rs` lines 8-18): only tests existence of the
path — any existing path, directory or not, short-circuits to `Ok`. -/
def create_path (fs : FS) (p : Path) : Except String FS :=
  if fs.pathExists p then .ok fs
  else dirBuilderCreate fs p

/-- `Post::save` (`src/post.rs` lines 116-133): ensure the post directory
and its `images` subdirectory exist, write `content.md` verbatim, then
serialize and write `metadata.toml`. -/
def Post.save (p : Post) (fs : FS) : Except String FS := do
  let fs ← create_path fs p.path
  let fs ← create_path fs (p.path ++ ["images"])
  let fs := fs.write (p.path ++ ["content.md"]) (.text p.content)
  let fs := fs.write (p.path ++ ["metadata.toml"]) (.metaToml (serializeMetadata p.metadata))
  .ok fs

/-- `fs::read_to_string` (`src/post.rs` lines 61, 65): fails when the file
is missing or is not valid UTF-8 text. -/
def FS.read_to_string (fs : FS) (p : Path) (what : String) : Except String String :=
  match fs.fileAt p with
  | some (.text s) => .ok s
  | some _ => .error s!"Failed to read {what} file: stream did not contain valid UTF-8"
  | none => .error s!"Failed to read {what} file: No such file or directory (os error 2)"

/-- `Post::load` (`src/post.rs` lines 49-76): existence check, read
`content.md`, read and parse `metadata.toml`.  Reading the metadata file
and `toml::from_str` are fused into one document-level step: a present
metadata file yields its document, which is then parsed. -/
def Post.load (fs : FS) (path : Path) : Except String Post :=
  if ¬ fs.pathExists path then .error "Blog post does not exist"
  else do
    let content ← fs.read_to_string (path ++ ["content.md"]) "content"
    match fs.fileAt (path ++ ["metadata.toml"]) with
    | none => .error "Failed to read metadata file: No such file or directory (os error 2)"
    | some (.metaToml d) =>
      match parseMetadata d with
      | .ok metadata => .ok { content := content, path := path, metadata := metadata }
      | .error e => .error s!"Failed to parse metadata file: {e}"
    | some _ => .error "Failed to parse metadata file: expected a metadata document"

/-- `Metadata::header_path` (`src/post.rs` lines 158-161). -/
def Metadata.header_path (blog_path : Path) : Path :=
  blog_path ++ ["images", "header"]

/-- `Metadata::header_exists` (`src/post.rs` lines 163-171). -/
def Metadata.header_exists (fs : FS) (path : Path) : Option Path :=
  let header_path := Metadata.header_path path ++ ["header.jpg"]
  if fs.pathExists header_path && fs.isFile header_path then some header_path
  else none

/-- `fs::copy`: read the source file and write its data at the
destination; the source remains in place. -/
def FS.copyFile (fs : FS) (src dst : Path) : Except String FS :=
  match fs.fileAt src with
  | some d => .ok (fs.write dst d)
  | none => .error "No such file or directory (os error 2)"

/-- `Metadata::choose_header` (`src/post.rs` lines 216-246).  The
`header_exists` check at the top only emits a warning in the source and
has no semantic effect.  Returns the result together with the resulting
filesystem (unchanged on error). -/
def Metadata.choose_header (fs : FS) (path : Path) (index : Nat) :
    Except String Unit × FS :=
  let header_path := Metadata.header_path path
  let chosen_header_picture := header_path ++ ["header.jpg"]
  let chosen_header_metadata := header_path ++ ["header.toml"]
  let candidate_path := header_path ++ ["candidates"]
  let candidate_header_picture := candidate_path ++ [s!"header_{index}.jpg"]
  let candidate_header_metadata := candidate_path ++ [s!"header_{index}.toml"]
  if !(fs.pathExists candidate_header_picture && fs.isFile candidate_header_picture) then
    (.error s!"No candidate header with the id {index} could be found", fs)
  else if !(fs.pathExists candidate_header_metadata && fs.isFile candidate_header_metadata) then
    (.error s!"The metadata file for candidate header {index} could not be found", fs)
  else
    match fs.copyFile candidate_header_picture chosen_header_picture with
    | .error e => (.error e, fs)
    | .ok fs1 =>
      match fs1.copyFile candidate_header_metadata chosen_header_metadata with
      | .error e => (.error e, fs)
      | .ok fs2 => (.ok (), fs2)

/-!  Header-candidate fetching (`src/header.rs`, driven from
`Metadata::fetch_new_header_images` in `src/post.rs`).  The remote Pexels
service and the process environment are modelled as an oracle `Net`; the
HTTP requests the code issues are logged so that "no network request" is
a provable statement. -/

/-- An outbound HTTP request. -/
inductive Request where
  | search (query : String) (perPage : Nat)
  | download (url : String)
  deriving DecidableEq

/-- Oracle for the process environment and the remote service:
`PEXEL_API_KEY`, the search response (status, raw body, and the typed
parse of the body), and the byte download per URL. -/
structure Net where
  pexelApiKey : Option String
  searchOk : Bool
  searchBody : String
  searchPhotos : Except String (List PexelPicture)
  fetchBytes : String → Except String (List Nat)

/-- The per-photo download loop of `get_new_candidates` (`src/header.rs`
lines 73-91): look up the `"landscape"` variant, download it, write the
image and its serialized sidecar, continue with the next index.  Any
failure aborts the loop; files already written stay written. -/
def fetchLoop (net : Net) (candidates_paths : Path) :
    List PexelPicture → Nat → FS → List Request →
    Except String (List Path) × FS × List Request
  | [], _, fs, reqs => (.ok [], fs, reqs)
  | image :: rest, index, fs, reqs =>
    match image.src.lookup "landscape" with
    | none => (.error "Unable to retreive landscape image from pexel picture", fs, reqs)
    | some image_url =>
      let image_path := candidates_paths ++ [s!"header_{index}.jpg"]
      let image_metadata := candidates_paths ++ [s!"header_{index}.toml"]
      let reqs := reqs ++ [Request.download image_url]
      match net.fetchBytes image_url with
      | .error e => (.error e, fs, reqs)
      | .ok b =>
        let fs := fs.write image_path (.bytes b)
        let fs := fs.write image_metadata (.picToml (serializePexelPicture image))
        match fetchLoop net candidates_paths rest (index + 1) fs reqs with
        | (.ok paths, fs2, reqs2) => (.ok (image_path :: paths), fs2, reqs2)
        | (.error e, fs2, reqs2) => (.error e, fs2, reqs2)

/-- `get_new_candidates` (`src/header.rs` lines 51-99): require the API
key, ensure `candidates/` exists, issue the search request (query is the
keywords joined with `", "`), and on a successful, well-formed response
download each photo starting at index 1. -/
def get_new_candidates (net : Net) (path : Path) (keywords : List String)
    (limit : Nat) (fs : FS) : Except String (List Path) × FS × List Request :=
  match net.pexelApiKey with
  | none => (.error "Missing PEXEL_API_KEY", fs, [])
  | some _ =>
    let candidates_paths := path ++ ["candidates"]
    match create_path fs candidates_paths with
    | .error e => (.error e, fs, [])
    | .ok fs1 =>
      let reqs := [Request.search (String.intercalate ", " keywords) limit]
      if net.searchOk then
        match net.searchPhotos with
        | .error e => (.error e, fs1, reqs)
        | .ok photos => fetchLoop net candidates_paths photos 1 fs1 reqs
      else
        (.error ("Failed to fetch image: " ++ net.searchBody), fs1, reqs)

/-- `Metadata::fetch_new_header_images` (`src/post.rs` lines 174-193):
guard on empty `keywords` before anything else, then run
`get_new_candidates` on the post's `images/header` directory.  (Building
the tokio runtime is modelled as always succeeding.) -/
def Metadata.fetch_new_header_images (m : Metadata) (net : Net) (path : Path)
    (amount : Nat) (fs : FS) : Except String Unit × FS × List Request :=
  if m.opengraph.keywords.isEmpty then
    (.error "Unable to fetch image for the blog post; The post has no keyword", fs, [])
  else
    match get_new_candidates net (Metadata.header_path path) m.opengraph.keywords amount fs with
    | (.ok _, fs1, reqs) => (.ok (), fs1, reqs)
    | (.error e, fs1, reqs) => (.error e, fs1, reqs)

/-- A concrete post used to exercise the save/load round trip. -/
def roundtripPost : Post :=
  { content := "body", path := ["p"], metadata := Metadata.default }

/-- The filesystem produced by saving `roundtripPost` on an empty
filesystem. -/
def roundtripFS : FS :=
  { files := [(["p", "metadata.toml"], .metaToml (serializeMetadata Metadata.default)),
              (["p", "content.md"], .text "body")],
    dirs := [["p"], ["p", "images"], ["p"]] }

/-!  ## Theorems -/

/-- Helper: `add_tag` keeps the tag list duplicate-free. -/
theorem add_tag_nodup (p : PostInfo) (v : String) (h : p.tags.Nodup) :
    ((p.add_tag v).2).tags.Nodup := by
  by_cases hv : v ∈ p.tags <;> simp [PostInfo.add_tag, hv, List.nodup_append, h]

/-- Helper: `remove_tag` keeps the tag list duplicate-free. -/
theorem remove_tag_nodup (p : PostInfo) (v : String) (h : p.tags.Nodup) :
    ((p.remove_tag v).2).tags.Nodup := by
  unfold PostInfo.remove_tag
  split
  · cases hidx : p.tags.findIdx? (fun x => x == v) with
    | none => simpa using h
    | some i => simpa using (List.eraseIdx_sublist p.tags i).nodup h
  · simpa using h

/-- Helper: `add_keyword` keeps the keyword list duplicate-free. -/
theorem add_keyword_nodup (g : OpenGraph) (v : String) (h : g.keywords.Nodup) :
    ((g.add_keyword v).2).keywords.Nodup := by
  by_cases hv : v ∈ g.keywords <;> simp [OpenGraph.add_keyword, hv, List.nodup_append, h]

/-- Helper: `remove_keyword` keeps the keyword list duplicate-free. -/
theorem remove_keyword_nodup (g : OpenGraph) (v : String) (h : g.keywords.Nodup) :
    ((g.remove_keyword v).2).keywords.Nodup := by
  unfold OpenGraph.remove_keyword
  split
  · cases hidx : g.keywords.findIdx? (fun x => x == v) with
    | none => simpa using h
    | some i => simpa using (List.eraseIdx_sublist g.keywords i).nodup h
  · simpa using h

/-- Helper: any sequence of tag edits preserves `Nodup`. -/
theorem applyTagOps_nodup (ops : List TagOp) (p : PostInfo) (h : p.tags.Nodup) :
    (applyTagOps p ops).tags.Nodup := by
  induction ops generalizing p with
  | nil => exact h
  | cons op rest ih =>
    cases op with
    | add v => exact ih _ (add_tag_nodup p v h)
    | remove v => exact ih _ (remove_tag_nodup p v h)

/-- Helper: any sequence of keyword edits preserves `Nodup`. -/
theorem applyKeywordOps_nodup (ops : List KeywordOp) (g : OpenGraph) (h : g.keywords.Nodup) :
    (applyKeywordOps g ops).keywords.Nodup := by
  induction ops generalizing g with
  | nil => exact h
  | cons op rest ih =>
    cases op with
    | add v => exact ih _ (add_keyword_nodup g v h)
    | remove v => exact ih _ (remove_keyword_nodup g v h)

/-- C7: starting from the empty tag list (resp. keyword list), every
sequence of `add_tag`/`remove_tag` (resp. `add_keyword`/`remove_keyword`)
operations — succeeding or failing — leaves the list duplicate-free, so
the no-duplicates invariant holds after every operation. -/
theorem nodup_invariant (tops : List TagOp) (kops : List KeywordOp) :
    (applyTagOps PostInfo.default tops).tags.Nodup ∧
    (applyKeywordOps OpenGraph.default kops).keywords.Nodup :=
  ⟨applyTagOps_nodup tops PostInfo.default List.nodup_nil,
   applyKeywordOps_nodup kops OpenGraph.default List.nodup_nil⟩

/-- C4: `add_tag`/`add_keyword` fail with the "already attached" error
and leave the record unchanged when the value is already present (exact
string equality), and otherwise succeed and append the value at the end;
in particular two successive `add`s of the same value on the empty list
succeed then fail, with the list equal to `[v]` after both calls. -/
theorem add_tag_add_keyword_spec (p : PostInfo) (g : OpenGraph) (v : String) :
    (p.add_tag v = if v ∈ p.tags
      then (.error s!"Tag `{v}` is already attached to this blog post", p)
      else (.ok (), { p with tags := p.tags ++ [v] })) ∧
    (g.add_keyword v = if v ∈ g.keywords
      then (.error s!"Keyword `{v}` is already attached to this blog post", g)
      else (.ok (), { g with keywords := g.keywords ++ [v] })) ∧
    (PostInfo.default.add_tag v).1 = .ok () ∧
    (PostInfo.default.add_tag v).2.tags = [v] ∧
    ((PostInfo.default.add_tag v).2.add_tag v).1
      = .error s!"Tag `{v}` is already attached to this blog post" ∧
    ((PostInfo.default.add_tag v).2.add_tag v).2.tags = [v] ∧
    (OpenGraph.default.add_keyword v).1 = .ok () ∧
    (OpenGraph.default.add_keyword v).2.keywords = [v] ∧
    ((OpenGraph.default.add_keyword v).2.add_keyword v).1
      = .error s!"Keyword `{v}` is already attached to this blog post" ∧
    ((OpenGraph.default.add_keyword v).2.add_keyword v).2.keywords = [v] := by
  refine ⟨?_, ?_, ?_, ?_, ?_, ?_, ?_, ?_, ?_, ?_⟩ <;>
    simp [PostInfo.add_tag, OpenGraph.add_keyword, PostInfo.default, OpenGraph.default]

/-- C2 (failing input): removing a value that is absent from the list
does fail and does leave the list unchanged, but the error message reads
"is already attached to this blog post" — the duplicate-`add` wording —
instead of a "not attached"/"not found" message (the `was not found`
string in the source sits in the unreachable `ok_or` branch). -/
theorem remove_absent_wrong_message :
    PostInfo.remove_tag
        { title := "t", author := "", published_date := none, update := none, tags := ["rust"] }
        "test"
      = (.error "Tag `test` is already attached to this blog post",
         { title := "t", author := "", published_date := none, update := none, tags := ["rust"] }) ∧
    OpenGraph.remove_keyword
        { short := "", opengraphimage := "", description := "", keywords := ["rust"] }
        "test"
      = (.error "Keyword `test` is already attached to this blog post",
         { short := "", opengraphimage := "", description := "", keywords := ["rust"] }) := by
  exact ⟨rfl, rfl⟩

/-- C1 (counterexample): an empty metadata file does **not** parse: serde
derives `Deserialize` without `#[serde(default)]`, so the `post` table is
required and `Post::load`'s parse step fails.  The filesystem below holds
a post directory with a `content.md` and an empty `metadata.toml`. -/
theorem empty_metadata_file_fails_to_parse :
    parseMetadata MetadataDoc.empty = .error "missing field `post`" ∧
    Post.load
        { files := [(["p", "content.md"], .text "body"),
                    (["p", "metadata.toml"], .metaToml MetadataDoc.empty)],
          dirs := [["p"]] }
        ["p"]
      = .error "Failed to parse metadata file: missing field `post`" :=
  ⟨rfl, rfl⟩

/-- C1 (amended): parsing a metadata file succeeds exactly when both
tables and all their non-`Option` fields are present; the two optional
timestamps are the only fields with a parse-time default (`None`).  In
particular a document with all required fields and no timestamps parses,
filling the timestamps with `None`. -/
theorem parsePostInfo_isOk_eq (d : PostInfoDoc) :
    (parsePostInfo d).isOk = (d.title.isSome && d.author.isSome && d.tags.isSome) := by
  obtain ⟨t, a, pd, up, tg⟩ := d
  cases t <;> cases a <;> cases tg <;>
    simp [parsePostInfo, requireField, Bind.bind, Except.bind, Except.isOk, Except.toBool]

theorem parseOpenGraph_isOk_eq (d : OpenGraphDoc) :
    (parseOpenGraph d).isOk
      = (d.short.isSome && d.opengraphimage.isSome && d.description.isSome &&
         d.keywords.isSome) := by
  obtain ⟨sh, oi, de, kw⟩ := d
  cases sh <;> cases oi <;> cases de <;> cases kw <;>
    simp [parseOpenGraph, requireField, Bind.bind, Except.bind, Except.isOk, Except.toBool]

theorem parseMetadata_requires_all_non_option_fields (d : MetadataDoc) :
    ((parseMetadata d).isOk = requiredMetadataFieldsPresent d) ∧
    (∀ pt au tg sh oi de kw,
      parseMetadata
          { post := some { title := some pt, author := some au,
                           published_date := none, update := none, tags := some tg },
            opengraph := some { short := some sh, opengraphimage := some oi,
                                description := some de, keywords := some kw } }
        = .ok { post := { title := pt, author := au, published_date := none,
                          update := none, tags := tg },
                opengraph := { short := sh, opengraphimage := oi,
                               description := de, keywords := kw } }) := by
  refine ⟨?_, fun pt au tg sh oi de kw => rfl⟩
  obtain ⟨dp, dg⟩ := d
  cases dp with
  | none => simp [parseMetadata, requireField, Bind.bind, Except.bind, Except.isOk, Except.toBool,
      requiredMetadataFieldsPresent]
  | some pdoc =>
    cases dg with
    | none =>
      cases hp : parsePostInfo pdoc <;>
        simp [parseMetadata, requireField, Bind.bind, Except.bind, Except.isOk, Except.toBool,
          requiredMetadataFieldsPresent, hp]
    | some odoc =>
      cases hp : parsePostInfo pdoc <;> cases ho : parseOpenGraph odoc <;>
        simp [parseMetadata, requireField, Bind.bind, Except.bind, Except.isOk, Except.toBool,
          requiredMetadataFieldsPresent, ← parsePostInfo_isOk_eq, ← parseOpenGraph_isOk_eq,
          hp, ho]

/-- C3 (counterexample): a candidate picture descriptor carrying `width`,
`height`, `url`, `photographer`, `photographer_url` and a `src` mapping
with a `"landscape"` entry, but no `alt` text, fails to parse: `alt` is a
plain `String` field of `PexelPicture` in `src/header.rs`, so serde
requires it. -/
theorem pexel_picture_without_alt_fails_to_parse :
    parsePexelPicture
        { width := some 800, height := some 600, url := some "https://example.com/p",
          photographer := some "Ann", photographer_url := some "https://example.com/ann",
          src := some [("landscape", "https://example.com/l.jpg")], alt := none }
      = .error "missing field `alt`" := rfl

/-- C3 (amended): `alt` is required, not optional — a descriptor with the
six other fields but no `alt` fails with a `missing field` error for
`alt`, and parsing succeeds once `alt` is present as well. -/
theorem parsePexelPicture_alt_required (w h : Nat) (u ph pu a : String)
    (s : List (String × String)) :
    parsePexelPicture
        { width := some w, height := some h, url := some u, photographer := some ph,
          photographer_url := some pu, src := some s, alt := none }
      = .error "missing field `alt`" ∧
    parsePexelPicture
        { width := some w, height := some h, url := some u, photographer := some ph,
          photographer_url := some pu, src := some s, alt := some a }
      = .ok { width := w, height := h, url := u, photographer := ph,
              photographer_url := pu, src := s, alt := a } :=
  ⟨rfl, rfl⟩

/-- Helper: the decimal representation of `n < 10 ^ k` has at most `k`
digits (any fuel; exhausted fuel only shortens the list). -/
theorem decimalReprAux_length_le (fuel : Nat) : ∀ n k : Nat, n < 10 ^ k → 1 ≤ k →
    (decimalReprAux fuel n).length ≤ k := by
  induction fuel with
  | zero => intro n k _ _; simp [decimalReprAux]
  | succ fuel ih =>
    intro n k hn hk
    by_cases h10 : n < 10
    · simp [decimalReprAux, h10]; omega
    · have hk2 : 2 ≤ k := by
        by_contra hlt
        have : k = 1 := by omega
        subst this; simp at hn; omega
      have hdiv : n / 10 < 10 ^ (k - 1) := by
        have hpow : 10 ^ (k - 1) * 10 = 10 ^ k := by
          rw [← pow_succ]
          congr 1
          omega
        rw [Nat.div_lt_iff_lt_mul (by norm_num)]
        omega
      have := ih (n / 10) (k - 1) hdiv (by omega)
      simp [decimalReprAux, h10]
      omega

/-- Helper: `zeroPad w n` has exactly `w` characters when the digits fit. -/
theorem zeroPad_length (w n : Nat) (h : (decimalRepr n).length ≤ w) :
    (zeroPad w n).length = w := by
  show (List.replicate (w - (decimalRepr n).length) '0' ++ decimalRepr n).length = w
  simp
  omega

/-- C6: immediately after `Post::new(title)` the tag and keyword lists are
empty, the metadata is the default record with only the title set, the
content is `"# " + title`, and the path is
`{year, zero-padded to 4}/{month, zero-padded to 2}/{slugify(title)}` —
three components, the last being the slugified title, the first two
being 4 and 2 digits for every year up to 9999 and month up to 99.
`Post.new` takes no filesystem state and returns none: it performs no
disk I/O by construction. -/
theorem post_new_spec (title : String) (d : Date) :
    (Post.new title d).metadata.post.tags = [] ∧
    (Post.new title d).metadata.opengraph.keywords = [] ∧
    (Post.new title d).content = "# " ++ title ∧
    (Post.new title d).metadata = Metadata.default.with_title title ∧
    (Post.new title d).path = [zeroPad 4 d.year, zeroPad 2 d.month, slugify title] ∧
    (Post.new title d).path.getLast? = some (slugify title) ∧
    (d.year ≤ 9999 → (zeroPad 4 d.year).length = 4) ∧
    (d.month ≤ 99 → (zeroPad 2 d.month).length = 2) := by
  refine ⟨rfl, rfl, rfl, rfl, rfl, rfl, fun hy => ?_, fun hm => ?_⟩
  · exact zeroPad_length 4 d.year
      (decimalReprAux_length_le (d.year + 1) d.year 4 (by omega) (by omega))
  · exact zeroPad_length 2 d.month
      (decimalReprAux_length_le (d.month + 1) d.month 2 (by omega) (by omega))

/-- C6 witness: `Post::new("Test post")` in October 2026. -/
theorem post_new_spec_witness :
    (Post.new "Test post" ⟨2026, 10⟩).metadata.post.tags = [] ∧
    (Post.new "Test post" ⟨2026, 10⟩).metadata.opengraph.keywords = [] ∧
    (Post.new "Test post" ⟨2026, 10⟩).content = "# Test post" ∧
    (Post.new "Test post" ⟨2026, 10⟩).path = ["2026", "10", "test-post"] ∧
    (zeroPad 4 2026).length = 4 ∧
    (zeroPad 2 10).length = 2 := by
  have h := post_new_spec "Test post" ⟨2026, 10⟩
  exact ⟨h.1, h.2.1, h.2.2.1, by decide, h.2.2.2.2.2.2.1 (by decide),
    h.2.2.2.2.2.2.2 (by decide)⟩

/-- C10: when the path already exists as a regular file, `create_path`
returns `Ok` with the filesystem unchanged — no directory is created and
no error is reported, because the guard only tests existence of the path
(`!path.exists()`), not whether it is a directory. -/
theorem create_path_on_existing_file (fs : FS) (p : Path) (h : fs.isFile p = true) :
    create_path fs p = .ok fs := by
  have hex : fs.pathExists p = true := by
    simp only [FS.pathExists, Bool.or_eq_true]
    exact Or.inl h
  simp [create_path, hex]

/-- C10 witness: a filesystem whose only entry is a regular file at `a/b`. -/
theorem create_path_on_existing_file_witness :
    ({ files := [(["a", "b"], .text "x")], dirs := [] } : FS).isFile ["a", "b"] = true ∧
    create_path { files := [(["a", "b"], .text "x")], dirs := [] } ["a", "b"]
      = .ok { files := [(["a", "b"], .text "x")], dirs := [] } :=
  ⟨by decide, create_path_on_existing_file _ ["a", "b"] (by decide)⟩

/-- C8: with an empty keyword list, `fetch_new_header_images` fails with
the "has no keyword" error before anything else happens: no HTTP request
is issued (empty request log) and the filesystem is returned unchanged
(no candidate file, not even the `candidates/` directory, is created). -/
theorem fetch_new_header_images_no_keywords (m : Metadata) (net : Net) (path : Path)
    (amount : Nat) (fs : FS) (h : m.opengraph.keywords = []) :
    m.fetch_new_header_images net path amount fs
      = (.error "Unable to fetch image for the blog post; The post has no keyword", fs, []) := by
  simp [Metadata.fetch_new_header_images, h]

/-- C8 witness: the default metadata (empty keywords) against a fully
stubbed-out network oracle and the empty filesystem. -/
theorem fetch_new_header_images_no_keywords_witness :
    Metadata.default.opengraph.keywords = [] ∧
    Metadata.default.fetch_new_header_images
        { pexelApiKey := none, searchOk := false, searchBody := "",
          searchPhotos := .error "", fetchBytes := fun _ => .error "" }
        ["p"] 3 FS.empty
      = (.error "Unable to fetch image for the blog post; The post has no keyword",
         FS.empty, []) :=
  ⟨rfl, fetch_new_header_images_no_keywords Metadata.default _ ["p"] 3 FS.empty rfl⟩

/-- Helper: a file at `p` means `p` exists. -/
theorem pathExists_of_isFile (fs : FS) (p : Path) (h : fs.isFile p = true) :
    fs.pathExists p = true := by
  simp only [FS.pathExists, Bool.or_eq_true]
  exact Or.inl h

/-- Helper: reading back a just-written file. -/
theorem fileAt_write_self (fs : FS) (p : Path) (d : FileData) :
    (fs.write p d).fileAt p = some d := by
  simp [FS.write, FS.fileAt, List.lookup]

/-- Helper: writing one file leaves every other file unchanged. -/
theorem fileAt_write_ne (fs : FS) (p q : Path) (d : FileData) (h : q ≠ p) :
    (fs.write p d).fileAt q = fs.fileAt q := by
  have hb : (q == p) = false := by simp [h]
  simp [FS.write, FS.fileAt, List.lookup, hb]

/-- Helper: a candidate file path (under `candidates/`) is never the
chosen-header path (one level up): the component counts differ. -/
theorem candidate_ne_chosen (path : Path) (name1 name2 : String) :
    Metadata.header_path path ++ ["candidates", name1]
      ≠ Metadata.header_path path ++ [name2] := by
  intro h
  apply_fun List.length at h
  simp [Metadata.header_path] at h

/-- C9: `choose_header(index)` fails with the "no candidate" error and
returns the filesystem untouched when `candidates/header_{index}.jpg` is
missing, fails with the metadata-file error (filesystem untouched) when
only the sidecar `candidates/header_{index}.toml` is missing, and when
both exist copies — does not move — their contents to `header.jpg` and
`header.toml` one level above `candidates/`: afterwards both candidate
files are still on disk with their original contents. -/
theorem choose_header_spec (fs : FS) (path : Path) (index : Nat) :
    (fs.isFile (Metadata.header_path path ++ ["candidates", s!"header_{index}.jpg"]) = false →
      Metadata.choose_header fs path index
        = (.error s!"No candidate header with the id {index} could be found", fs)) ∧
    (fs.isFile (Metadata.header_path path ++ ["candidates", s!"header_{index}.jpg"]) = true →
     fs.isFile (Metadata.header_path path ++ ["candidates", s!"header_{index}.toml"]) = false →
      Metadata.choose_header fs path index
        = (.error s!"The metadata file for candidate header {index} could not be found", fs)) ∧
    (∀ dpic dmeta,
      fs.fileAt (Metadata.header_path path ++ ["candidates", s!"header_{index}.jpg"])
        = some dpic →
      fs.fileAt (Metadata.header_path path ++ ["candidates", s!"header_{index}.toml"])
        = some dmeta →
      Metadata.choose_header fs path index
        = (.ok (), (fs.write (Metadata.header_path path ++ ["header.jpg"]) dpic).write
            (Metadata.header_path path ++ ["header.toml"]) dmeta) ∧
      ((fs.write (Metadata.header_path path ++ ["header.jpg"]) dpic).write
          (Metadata.header_path path ++ ["header.toml"]) dmeta).fileAt
        (Metadata.header_path path ++ ["candidates", s!"header_{index}.jpg"]) = some dpic ∧
      ((fs.write (Metadata.header_path path ++ ["header.jpg"]) dpic).write
          (Metadata.header_path path ++ ["header.toml"]) dmeta).fileAt
        (Metadata.header_path path ++ ["candidates", s!"header_{index}.toml"])
        = some dmeta) := by
  refine ⟨?_, ?_, ?_⟩
  · intro h
    simp [Metadata.choose_header, h]
  · intro h1 h2
    simp [Metadata.choose_header, h1, h2, pathExists_of_isFile fs _ h1]
  · intro dpic dmeta h1 h2
    have hf1 : fs.isFile (Metadata.header_path path ++ ["candidates", s!"header_{index}.jpg"])
        = true := by simp [FS.isFile, h1]
    have hf2 : fs.isFile (Metadata.header_path path ++ ["candidates", s!"header_{index}.toml"])
        = true := by simp [FS.isFile, h2]
    have hmeta : (fs.write (Metadata.header_path path ++ ["header.jpg"]) dpic).fileAt
        (Metadata.header_path path ++ ["candidates", s!"header_{index}.toml"])
        = some dmeta := by
      rw [fileAt_write_ne fs _ _ _ (candidate_ne_chosen path _ _)]
      exact h2
    refine ⟨?_, ?_, ?_⟩
    · simp [Metadata.choose_header, hf1, hf2, pathExists_of_isFile fs _ hf1,
        pathExists_of_isFile fs _ hf2, FS.copyFile, h1, hmeta]
    · rw [fileAt_write_ne _ _ _ _ (candidate_ne_chosen path _ _),
        fileAt_write_ne _ _ _ _ (candidate_ne_chosen path _ _)]
      exact h1
    · rw [fileAt_write_ne _ _ _ _ (candidate_ne_chosen path _ _),
        fileAt_write_ne _ _ _ _ (candidate_ne_chosen path _ _)]
      exact h2

/-- C9 witness: a filesystem holding candidate 2's image and sidecar;
choosing index 2 succeeds, installs `header.jpg`/`header.toml`, and the
candidate files are still present; choosing index 5 fails and changes
nothing. -/
theorem choose_header_spec_witness :
    (let fs : FS :=
      { files := [(["b", "images", "header", "candidates", "header_2.jpg"], .bytes [1, 2]),
                  (["b", "images", "header", "candidates", "header_2.toml"], .text "t")],
        dirs := [["b", "images", "header", "candidates"]] }
     Metadata.choose_header fs ["b"] 2
        = (.ok (), (fs.write (["b", "images", "header"] ++ ["header.jpg"]) (.bytes [1, 2])).write
            (["b", "images", "header"] ++ ["header.toml"]) (.text "t")) ∧
      Metadata.choose_header fs ["b"] 5
        = (.error "No candidate header with the id 5 could be found", fs)) := by
  refine ⟨((choose_header_spec _ ["b"] 2).2.2 (.bytes [1, 2]) (.text "t")
    (by decide) (by decide)).1, (choose_header_spec _ ["b"] 5).1 (by decide)⟩

/-- Helper: document-level round trip of the metadata serialization:
serializing emits every required field, so parsing it back succeeds and
reproduces the record (the `Option` timestamps pass through). -/
theorem parseMetadata_serializeMetadata (m : Metadata) :
    parseMetadata (serializeMetadata m) = .ok m := rfl

/-- Helper: a successful `create_path` leaves the files untouched, keeps
every existing path existing, and makes the requested (non-empty) path
exist. -/
theorem create_path_ok_spec (fs fs2 : FS) (q : Path) (h : create_path fs q = .ok fs2) :
    fs2.files = fs.files ∧
    (∀ r, fs.pathExists r = true → fs2.pathExists r = true) ∧
    (q ≠ [] → fs2.pathExists q = true) := by
  unfold create_path at h
  by_cases hex : fs.pathExists q = true
  · simp [hex] at h
    subst h
    exact ⟨rfl, fun r hr => hr, fun _ => hex⟩
  · simp [hex] at h
    unfold dirBuilderCreate at h
    by_cases hany : (pathPrefixes q).any (fun r => (fs.fileAt r).isSome) = true
    · simp [hany] at h
    · simp [hany] at h
      subst h
      refine ⟨rfl, ?_, ?_⟩
      · intro r hr
        simp only [FS.pathExists, Bool.or_eq_true] at hr ⊢
        rcases hr with hr | hr
        · exact Or.inl hr
        · refine Or.inr ?_
          have hmem : r ∈ pathPrefixes q ++ fs.dirs :=
            List.mem_append.mpr (Or.inr (by simpa using hr))
          simpa using hmem
      · intro hq
        simp only [FS.pathExists, Bool.or_eq_true]
        refine Or.inr ?_
        have hlen : 1 ≤ q.length := List.length_pos.mpr hq
        have hmem : q ∈ pathPrefixes q ++ fs.dirs := by
          refine List.mem_append.mpr (Or.inl (List.mem_map.mpr
            ⟨q.length - 1, List.mem_range.mpr (by omega), ?_⟩))
          have h1 : q.length - 1 + 1 = q.length := by omega
          rw [h1, List.take_length]
        simpa using hmem

/-- Helper: writing a file keeps every existing path existing. -/
theorem pathExists_write (fs : FS) (q r : Path) (d : FileData)
    (h : fs.pathExists r = true) : (fs.write q d).pathExists r = true := by
  by_cases hrq : r = q
  · subst hrq
    simp [FS.pathExists, fileAt_write_self]
  · simp only [FS.pathExists, Bool.or_eq_true] at h ⊢
    rw [fileAt_write_ne fs q r d hrq]
    exact h

/-- C5: whenever `save()` succeeds, `load()` from the same (non-empty)
path succeeds and returns the post unchanged: same content and the same
metadata record, field for field.  (The empty path is excluded: it is a
degenerate `PathBuf` that no created or loadable post has.) -/
theorem save_load_roundtrip (fs fs2 : FS) (p : Post) (hpath : p.path ≠ [])
    (h : p.save fs = .ok fs2) : Post.load fs2 p.path = .ok p := by
  unfold Post.save at h
  cases h1 : create_path fs p.path with
  | error e => rw [h1] at h; simp [Bind.bind, Except.bind] at h
  | ok fsa =>
    rw [h1] at h
    simp only [Bind.bind, Except.bind] at h
    cases h2 : create_path fsa (p.path ++ ["images"]) with
    | error e => rw [h2] at h; simp at h
    | ok fsb =>
      rw [h2] at h
      simp only [Except.ok.injEq] at h
      subst h
      obtain ⟨_, hkeep1, hmk1⟩ := create_path_ok_spec fs fsa p.path h1
      obtain ⟨_, hkeep2, _⟩ := create_path_ok_spec fsa fsb (p.path ++ ["images"]) h2
      have hex : fsb.pathExists p.path = true := hkeep2 p.path (hmk1 hpath)
      have hexw : ((fsb.write (p.path ++ ["content.md"]) (.text p.content)).write
          (p.path ++ ["metadata.toml"]) (.metaToml (serializeMetadata p.metadata))).pathExists
          p.path = true :=
        pathExists_write _ _ _ _ (pathExists_write _ _ _ _ hex)
      have hne : p.path ++ ["content.md"] ≠ p.path ++ ["metadata.toml"] := by simp
      have hcontent : ((fsb.write (p.path ++ ["content.md"]) (.text p.content)).write
          (p.path ++ ["metadata.toml"]) (.metaToml (serializeMetadata p.metadata))).fileAt
          (p.path ++ ["content.md"]) = some (.text p.content) := by
        rw [fileAt_write_ne _ _ _ _ hne]
        exact fileAt_write_self _ _ _
      have hmeta : ((fsb.write (p.path ++ ["content.md"]) (.text p.content)).write
          (p.path ++ ["metadata.toml"]) (.metaToml (serializeMetadata p.metadata))).fileAt
          (p.path ++ ["metadata.toml"]) = some (.metaToml (serializeMetadata p.metadata)) :=
        fileAt_write_self _ _ _
      unfold Post.load FS.read_to_string
      rw [hcontent, hmeta]
      simp [hexw, Bind.bind, Except.bind, parseMetadata_serializeMetadata]

/-- C5 witness: saving a concrete post on the empty filesystem and
loading it back. -/
theorem save_load_roundtrip_witness :
    roundtripPost.path ≠ [] ∧
    roundtripPost.save FS.empty = .ok roundtripFS ∧
    Post.load roundtripFS ["p"] = .ok roundtripPost :=
  ⟨by decide, by decide,
   save_load_roundtrip FS.empty roundtripFS roundtripPost (by decide) (by decide)⟩

end BlogCLI
